import Mathlib

/-
Verification of the ledger layer of the Hotel Management application
(`interface.py`): menu orders, room bookings, support tickets and the
image path resolver, shallowly embedded over an explicit relational
store state.  SQLite tables become lists of row records; each repo
operation becomes a pure Lean function threading the committed store.
-/

deriving instance DecidableEq for Except

namespace HotelSpec

/-- A calendar date as produced by `datetime.date.fromisoformat`. -/
structure Date where
  year : Nat
  month : Nat
  day : Nat
deriving DecidableEq

/-- Row of the `menu_items` table. -/
structure MenuItemRow where
  id : Nat
  name : String
  category : String
  price : Nat
  image_path : Option String
  is_active : Bool
deriving DecidableEq

/-- Row of the `orders` table. -/
structure OrderRow where
  id : Nat
  customer_name : Option String
  phone : Option String
  total : Nat
  created_at : String
deriving DecidableEq

/-- Row of the `order_items` table (the surrogate `id` column plays no role). -/
structure OrderItemRow where
  order_id : Nat
  item_id : Nat
  qty : Nat
  line_total : Nat
deriving DecidableEq

/-- Row of the `customers` table. -/
structure CustomerRow where
  id : Nat
  name : String
  phone : Option String
  email : String
deriving DecidableEq

/-- Row of the `rooms` table. -/
structure RoomRow where
  id : Nat
  room_no : String
  room_type : String
  price_per_night : Nat
  is_active : Bool
deriving DecidableEq

/-- Row of the `bookings` table. -/
structure BookingRow where
  id : Nat
  customer_id : Nat
  room_id : Nat
  check_in : String
  check_out : String
  nights : Nat
  total : Nat
  created_at : String
  status : String
deriving DecidableEq

/-- Row of the `tickets` table. -/
structure TicketRow where
  id : Nat
  customer_id : Option Nat
  category : String
  subject : String
  message : String
  status : String
  created_at : String
deriving DecidableEq

/-- The committed state of the SQLite store: one list per table, plus the
next AUTOINCREMENT id for each table whose generated key the code reads. -/
structure DB where
  menu_items : List MenuItemRow
  orders : List OrderRow
  order_items : List OrderItemRow
  customers : List CustomerRow
  rooms : List RoomRow
  bookings : List BookingRow
  tickets : List TicketRow
  next_order_id : Nat
  next_customer_id : Nat
  next_booking_id : Nat
  next_ticket_id : Nat
deriving DecidableEq

/-- A store with empty tables and all AUTOINCREMENT counters at 1. -/
def emptyDB : DB := ⟨[], [], [], [], [], [], [], 1, 1, 1, 1⟩

/-! ## SQLite `LIKE` semantics

SQLite's default `LIKE` folds the 26 ASCII upper-case letters to lower
case and treats `%` as "any sequence" and `_` as "any single character". -/

/-- SQLite's ASCII-only case fold used by the default `LIKE`. -/
def sqliteFold (c : Char) : Char :=
  if 65 ≤ c.toNat ∧ c.toNat ≤ 90 then Char.ofNat (c.toNat + 32) else c

/-- `likeM p t` decides whether text `t` matches `LIKE` pattern `p`
(SQLite default semantics: ASCII-case-insensitive, `%` and `_` wildcards). -/
def likeM : List Char → List Char → Bool
  | [], t => t.isEmpty
  | c :: ps, t =>
    if c == '%' then (t.tails).any (fun suf => likeM ps suf)
    else
      match t with
      | [] => false
      | b :: t2 => (if c == '_' then true else sqliteFold c == sqliteFold b) && likeM ps t2

/-- `s LIKE '%' || f || '%'` as built by the repository's filter queries. -/
def likeWrap (f s : String) : Bool := likeM ("%" ++ f ++ "%").toList s.toList

/-- `needle` case-insensitively (ASCII) matches a prefix of `hay`. -/
def startsCI : List Char → List Char → Bool
  | [], _ => true
  | _ :: _, [] => false
  | c :: cs, b :: bs => (sqliteFold c == sqliteFold b) && startsCI cs bs

/-- `needle` occurs in `hay` as an ASCII-case-insensitive contiguous substring. -/
def containsCI (needle hay : List Char) : Bool :=
  (hay.tails).any (fun suf => startsCI needle suf)

/-- `needle` matches a prefix of `hay` exactly (case-sensitive). -/
def startsCS : List Char → List Char → Bool
  | [], _ => true
  | _ :: _, [] => false
  | c :: cs, b :: bs => (c == b) && startsCS cs bs

/-- `needle` occurs in `hay` as a case-sensitive contiguous substring. -/
def containsCS (needle hay : List Char) : Bool :=
  (hay.tails).any (fun suf => startsCS needle suf)

/-- A character that is not a `LIKE` wildcard. -/
def wcharFree (c : Char) : Bool := !(c == '%' || c == '_')

/-- Python's `str.strip()`: drop whitespace from both ends. -/
def pyStrip (s : String) : String :=
  ⟨(((s.toList.dropWhile Char.isWhitespace).reverse.dropWhile Char.isWhitespace).reverse)⟩

section LikeLemmas

theorem tails_any_isEmpty (t : List Char) : (t.tails).any (fun s => s.isEmpty) = true := by
  induction t with
  | nil => simp
  | cons b t2 ih => simp [List.tails_cons, ih]

theorem likeM_trailing_pct (f : List Char) (hw : f.all wcharFree = true) :
    ∀ t, likeM (f ++ ['%']) t = startsCI f t := by
  induction f with
  | nil =>
    intro t
    simp only [List.nil_append, likeM, startsCI]
    simp [tails_any_isEmpty t]
  | cons c cs ih =>
    intro t
    simp only [List.all_cons, Bool.and_eq_true] at hw
    have hc : ¬(c == '%') = true := by
      intro h
      simp [wcharFree, h] at hw
    have hc2 : ¬(c == '_') = true := by
      intro h
      simp [wcharFree, h] at hw
    cases t with
    | nil =>
      simp only [List.cons_append, likeM, startsCI]
      rw [if_neg hc]
    | cons b t2 =>
      simp only [List.cons_append, likeM, startsCI]
      rw [if_neg hc, if_neg hc2]
      exact congrArg (fun z => (sqliteFold c == sqliteFold b) && z) (ih hw.2 t2)

theorem likeM_wrapped_eq_containsCI (f : List Char) (hw : f.all wcharFree = true) (t : List Char) :
    likeM ('%' :: (f ++ ['%'])) t = containsCI f t := by
  simp only [likeM, if_pos (by rfl : ('%' == '%') = true), containsCI]
  have hfun : (fun suf => likeM (f ++ ['%']) suf) = (fun suf => startsCI f suf) :=
    funext (fun suf => likeM_trailing_pct f hw suf)
  rw [hfun]

theorem string_wrap_toList (f : String) :
    ("%" ++ f ++ "%").toList = '%' :: (f.toList ++ ['%']) := by
  cases f with
  | mk d => rfl

theorem likeWrap_eq_containsCI (f s : String) (hw : f.toList.all wcharFree = true) :
    likeWrap f s = containsCI f.toList s.toList := by
  rw [likeWrap, string_wrap_toList, likeM_wrapped_eq_containsCI f.toList hw]

theorem containsCI_nil_of_ne (f : String) (hf : f ≠ "") :
    containsCI f.toList [] = false := by
  cases f with
  | mk d =>
    cases d with
    | nil => exact absurd rfl hf
    | cons c cs => rfl

end LikeLemmas

/-! ## Calendar dates (`datetime.date`)

`date.fromisoformat` parses `YYYY-MM-DD`; subtracting two dates yields the
difference of their proleptic-Gregorian ordinals in whole days. -/

/-- Gregorian leap-year test. -/
def isLeapYear (y : Nat) : Bool := (y % 4 == 0 && y % 100 != 0) || y % 400 == 0

/-- Length of month `m` (1-based) in year `y`. -/
def daysInMonth (y m : Nat) : Nat :=
  [31, if isLeapYear y then 29 else 28, 31, 30, 31, 30, 31, 31, 30, 31, 30, 31].getD (m - 1) 0

/-- Days in the years strictly before year `y` (proleptic Gregorian). -/
def daysBeforeYear (y : Nat) : Nat :=
  365 * (y - 1) + (y - 1) / 4 - (y - 1) / 100 + (y - 1) / 400

/-- Days in year `y` strictly before month `m`. -/
def daysBeforeMonth (y m : Nat) : Nat :=
  (List.range (m - 1)).foldl (fun acc i => acc + daysInMonth y (i + 1)) 0

/-- `datetime.date.toordinal`: day number with 0001-01-01 as day 1. -/
def toOrdinal (d : Date) : Nat :=
  daysBeforeYear d.year + daysBeforeMonth d.year d.month + d.day

/-- `(d2 - d1).days` for two dates. -/
def dateDiff (d2 d1 : Date) : Int := (toOrdinal d2 : Int) - (toOrdinal d1 : Int)

/-- Numeric value of a decimal digit character. -/
def digitVal (c : Char) : Nat := c.toNat - 48

/-- `datetime.date.fromisoformat` restricted to the documented `YYYY-MM-DD`
form: four digit year, two digit month and day, dash separators, and the
usual calendar validity checks (year 1–9999). -/
def date_fromisoformat (s : String) : Option Date :=
  match s.toList with
  | [y1, y2, y3, y4, h1, m1, m2, h2, d1, d2] =>
    if h1 == '-' && h2 == '-' &&
       y1.isDigit && y2.isDigit && y3.isDigit && y4.isDigit &&
       m1.isDigit && m2.isDigit && d1.isDigit && d2.isDigit then
      let y := digitVal y1 * 1000 + digitVal y2 * 100 + digitVal y3 * 10 + digitVal y4
      let m := digitVal m1 * 10 + digitVal m2
      let d := digitVal d1 * 10 + digitVal d2
      if 1 ≤ y && y ≤ 9999 && 1 ≤ m && m ≤ 12 && 1 ≤ d && d ≤ daysInMonth y m then
        some ⟨y, m, d⟩
      else none
    else none
  | _ => none

/-! ## Filesystem path helpers (`os.path`, POSIX flavour)

The filesystem itself is abstracted as the list of existing paths. -/

/-- `os.path.exists` over the abstract filesystem `fs`. -/
def pexists (fs : List String) (p : String) : Bool := fs.contains p

/-- `os.path.isabs` (POSIX): the path begins with a slash. -/
def pisabs (p : String) : Bool :=
  match p.toList with
  | [] => false
  | c :: _ => c == '/'

/-- Whether the string ends with a slash. -/
def endsWithSlash (a : String) : Bool := a.toList.reverse.head? == some '/'

/-- `os.path.join a b` (POSIX, two arguments). -/
def pjoin (a b : String) : String :=
  if pisabs b then b
  else if a = "" || endsWithSlash a then a ++ b
  else a ++ "/" ++ b

/-- Index of the last occurrence of `c` in `l`, or `-1` (CPython's `rfind`). -/
def rlastIdx (c : Char) (l : List Char) : Int :=
  match l.reverse.findIdx? (fun x => x == c) with
  | none => -1
  | some i => (l.length : Int) - 1 - (i : Int)

/-- The root part of `os.path.splitext p`: splits at the last dot of the
final path component unless that component consists only of leading dots. -/
def splitextRoot (p : String) : String :=
  let cs := p.toList
  let sepI := rlastIdx '/' cs
  let dotI := rlastIdx '.' cs
  if sepI < dotI then
    let start := (sepI + 1).toNat
    let seg := (cs.drop start).take (dotI.toNat - start)
    if seg.any (fun x => x != '.') then ⟨cs.take dotI.toNat⟩ else p
  else p

/-- `resolve_image_path` from the source: ordered first-match search over
path variants, over abstract filesystem `fs` with assets root `assets`. -/
def resolve_image_path (fs : List String) (assets : String) (path : Option String) : Option String :=
  match path with
  | none => none
  | some p =>
    if p = "" then none
    else if pisabs p && pexists fs p then some p
    else
      let cand := pjoin assets p
      if pexists fs cand then some cand
      else
        let base := splitextRoot p
        let variants := [p, base ++ ".png", base ++ ".jpg", base ++ ".jpeg", p ++ ".png"]
        variants.findSome? (fun v => if pexists fs (pjoin assets v) then some (pjoin assets v) else none)

/-- Modelled from the spec's words for the resolver contract: empty hint is
none; an existing absolute path is returned as-is; then, in order, the hint
relative to the assets root, the hint's stem with `.png`, `.jpg`, `.jpeg`
appended, and the literal hint with an extra `.png`, returning the first
variant that exists and none otherwise. -/
def resolveSpecModel (fs : List String) (assets : String) (path : Option String) : Option String :=
  match path with
  | none => none
  | some p =>
    if p = "" then none
    else if pisabs p && pexists fs p then some p
    else
      let base := splitextRoot p
      let variants := [p, base ++ ".png", base ++ ".jpg", base ++ ".jpeg", p ++ ".png"]
      variants.findSome? (fun v => if pexists fs (pjoin assets v) then some (pjoin assets v) else none)

/-! ## Repositories -/

/-- `SELECT price FROM menu_items WHERE id = ?` followed by `fetchone`. -/
def priceOf (menu : List MenuItemRow) (i : Nat) : Option Nat :=
  (menu.find? (fun it => it.id == i)).map (fun it => it.price)

/-- The first cart entry whose item id has no `menu_items` row, if any
(the entry on which `create_order`'s pricing loop raises). -/
def firstUnpriced (menu : List MenuItemRow) (cart : List (Nat × Nat)) : Option Nat :=
  (cart.find? (fun pr => (priceOf menu pr.1).isNone)).map (fun pr => pr.1)

/-- The pricing loop of `OrderRepo.create_order`: accumulates the grand
total and the `(item_id, qty, line_total)` triples, failing on the first
unknown item id. -/
def priceCartAux (menu : List MenuItemRow) (total : Nat) (items : List (Nat × Nat × Nat)) :
    List (Nat × Nat) → Except String (Nat × List (Nat × Nat × Nat))
  | [] => .ok (total, items)
  | (i, q) :: rest =>
    match priceOf menu i with
    | none => .error ("Menu item id " ++ toString i ++ " not found")
    | some p => priceCartAux menu (total + p * q) (items ++ [(i, q, p * q)]) rest

/-- `OrderRepo.create_order`: price every cart entry (raising before any
write if an item id is unknown), insert the order row with the accumulated
total, then one `order_items` row per cart entry, and commit.  An error
result leaves the committed store unchanged (the connection is closed
without commit). -/
def create_order (customer_name phone : String) (cart : List (Nat × Nat)) (now : String)
    (db : DB) : Except String Nat × DB :=
  match priceCartAux db.menu_items 0 [] cart with
  | .error e => (.error e, db)
  | .ok (total, items) =>
    let oid := db.next_order_id
    let db1 : DB :=
      { db with
        orders := db.orders ++ [⟨oid, some customer_name, some phone, total, now⟩],
        order_items := db.order_items ++
          items.map (fun tr => OrderItemRow.mk oid tr.1 tr.2.1 tr.2.2),
        next_order_id := oid + 1 }
    (.ok oid, db1)

/-- Projection of an `orders` row by `list_orders`'s SELECT:
`(id, created_at, IFNULL(customer_name,''), IFNULL(phone,''), total)`. -/
structure OrderView where
  id : Nat
  created_at : String
  name : String
  phone : String
  total : Nat
deriving DecidableEq

/-- The SELECT projection of `list_orders`. -/
def toView (r : OrderRow) : OrderView :=
  ⟨r.id, r.created_at, r.customer_name.getD "", r.phone.getD "", r.total⟩

/-- The WHERE clause built by `list_orders`: a truthy `name` filter adds
`customer_name LIKE '%name%'` (NULL never matches), a truthy `phone`
filter adds `IFNULL(phone,'') LIKE '%phone%'`. -/
def orderCond (nf pf : Option String) (r : OrderRow) : Bool :=
  (match nf with
   | none => true
   | some f =>
     if f = "" then true
     else match r.customer_name with
       | none => false
       | some s => likeWrap f s)
  &&
  (match pf with
   | none => true
   | some f => if f = "" then true else likeWrap f (r.phone.getD ""))

/-- Insert `a` into `l` keeping elements `x` with `le a x = false` in front
(insertion step of an insertion sort). -/
def insertBy (le : α → α → Bool) (a : α) : List α → List α
  | [] => [a]
  | x :: xs => if le a x then a :: x :: xs else x :: insertBy le a xs

/-- Insertion sort by the boolean relation `le`. -/
def sortBy (le : α → α → Bool) : List α → List α
  | [] => []
  | x :: xs => insertBy le x (sortBy le xs)

/-- `ORDER BY id DESC` comparison on order rows. -/
def ordDescLe (a b : OrderRow) : Bool := decide (b.id ≤ a.id)

/-- `OrderRepo.list_orders`: filter, order by id descending, project. -/
def list_orders (nf pf : Option String) (db : DB) : List OrderView :=
  (sortBy ordDescLe (db.orders.filter (orderCond nf pf))).map toView

/-- `CustomerRepo.ensure_customer`: look up `(name, IFNULL(phone,''))`;
return the existing id, else insert a new row and commit.  Runs on its own
connection. -/
def ensure_customer (name phone email : String) (db : DB) : Nat × DB :=
  match db.customers.find? (fun c => c.name == name && c.phone.getD "" == phone) with
  | some c => (c.id, db)
  | none =>
    let cid := db.next_customer_id
    (cid, { db with
            customers := db.customers ++ [⟨cid, name, some phone, email⟩],
            next_customer_id := cid + 1 })

/-- `SELECT price_per_night FROM rooms WHERE id = ?` followed by `fetchone`. -/
def roomPrice (db : DB) (room_id : Nat) : Option Nat :=
  (db.rooms.find? (fun r => r.id == room_id)).map (fun r => r.price_per_night)

/-- `BookingRepo.create_booking`: parse the dates and reject a non-positive
night count before touching the store; look up the room; resolve the
customer through `ensure_customer` (which commits on its own connection);
then insert the booking row and commit.  `insertFails` injects a store
error on the booking INSERT (per the error model, such an error is
propagated unchanged); the customer commit has already happened by then. -/
def create_booking (customer_name phone : String) (room_id : Nat)
    (check_in check_out : String) (now : String) (insertFails : Bool)
    (db : DB) : Except String Nat × DB :=
  match date_fromisoformat check_in with
  | none => (.error "Invalid isoformat string", db)
  | some d1 =>
    match date_fromisoformat check_out with
    | none => (.error "Invalid isoformat string", db)
    | some d2 =>
      let nights : Int := dateDiff d2 d1
      if nights ≤ 0 then (.error "Check-out must be after check-in", db)
      else
        match roomPrice db room_id with
        | none => (.error "Room not found", db)
        | some price =>
          let total := price * nights.toNat
          let res := ensure_customer customer_name phone "" db
          let cust_id := res.1
          let db1 := res.2
          if insertFails then (.error "booking insert failed", db1)
          else
            let bid := db1.next_booking_id
            (.ok bid,
             { db1 with
               bookings := db1.bookings ++
                 [⟨bid, cust_id, room_id, check_in, check_out, nights.toNat, total, now, "Booked"⟩],
               next_booking_id := bid + 1 })

/-- `TicketRepo.create_ticket`: resolve the customer (own connection,
commits), then insert the ticket row with status `Open` and commit. -/
def create_ticket (name phone category subject message : String) (now : String)
    (db : DB) : Nat × DB :=
  let res := ensure_customer name phone "" db
  let cust_id := res.1
  let db1 := res.2
  let tid := db1.next_ticket_id
  (tid,
   { db1 with
     tickets := db1.tickets ++ [⟨tid, some cust_id, category, subject, message, "Open", now⟩],
     next_ticket_id := tid + 1 })

/-- The create-ticket operation as reachable through the application
(`SupportFrame._create_ticket`): strip every field, reject an empty
subject before any store access, otherwise call `TicketRepo.create_ticket`. -/
def support_create_ticket (name phone category subject message : String) (now : String)
    (db : DB) : Except String Nat × DB :=
  let name := pyStrip name
  let phone := pyStrip phone
  let subject := pyStrip subject
  let category := pyStrip category
  let message := pyStrip message
  if subject = "" then (.error "Subject is required", db)
  else
    let res := create_ticket name phone category subject message now db
    (.ok res.1, res.2)

/-- `MenuItem` dataclass returned by `MenuRepo.list_items`. -/
structure MenuItem where
  id : Nat
  name : String
  category : String
  price : Nat
  image_path : Option String
deriving DecidableEq

/-- Byte-wise (equivalently, code-point-wise) strict order on strings,
SQLite's BINARY collation. -/
def charListLt : List Char → List Char → Bool
  | [], [] => false
  | [], _ :: _ => true
  | _ :: _, [] => false
  | a :: as, b :: bs => decide (a.toNat < b.toNat) || (a == b && charListLt as bs)

/-- BINARY-collation strict order on strings. -/
def strLtB (a b : String) : Bool := charListLt a.toList b.toList

/-- `ORDER BY category, name` comparison on menu rows. -/
def menuItemLe (x y : MenuItemRow) : Bool :=
  strLtB x.category y.category ||
    (x.category == y.category && (strLtB x.name y.name || x.name == y.name))

/-- `MenuRepo.list_items`: active rows only, optional exact category filter
(skipped for `All`), optional `name LIKE '%search%'` filter, ordered by
`(category, name)`. -/
def list_items (category : Option String) (search : String) (db : DB) : List MenuItem :=
  let l0 := db.menu_items.filter (fun it => it.is_active)
  let l1 :=
    match category with
    | none => l0
    | some c => if c = "" then l0 else if c = "All" then l0
                else l0.filter (fun it => it.category == c)
  let l2 := if search = "" then l1 else l1.filter (fun it => likeWrap search it.name)
  (sortBy menuItemLe l2).map (fun it => MenuItem.mk it.id it.name it.category it.price it.image_path)

/-- Mark every menu row inactive (soft-deactivation of the whole catalog). -/
def setInactiveDB (db : DB) : DB :=
  { db with menu_items := db.menu_items.map (fun it => { it with is_active := false }) }

/-! ## Helper lemmas -/

section SortLemmas

variable {α : Type} (le : α → α → Bool)

theorem mem_insertBy (a b : α) (l : List α) :
    b ∈ insertBy le a l ↔ b = a ∨ b ∈ l := by
  induction l with
  | nil => simp [insertBy]
  | cons x xs ih =>
    by_cases h : le a x = true
    · simp [insertBy, h]
    · simp only [insertBy, if_neg h, List.mem_cons, ih]
      tauto

theorem pairwise_insertBy
    (htot : ∀ a b, le a b = true ∨ le b a = true)
    (htr : ∀ a b c, le a b = true → le b c = true → le a c = true)
    (a : α) (l : List α) (hl : l.Pairwise (fun x y => le x y = true)) :
    (insertBy le a l).Pairwise (fun x y => le x y = true) := by
  induction l with
  | nil => simp [insertBy]
  | cons x xs ih =>
    rw [List.pairwise_cons] at hl
    by_cases h : le a x = true
    · rw [insertBy, if_pos h, List.pairwise_cons]
      refine ⟨?_, List.pairwise_cons.mpr hl⟩
      intro y hy
      rcases List.mem_cons.mp hy with hy | hy
      · rw [hy]; exact h
      · exact htr a x y h (hl.1 y hy)
    · rw [insertBy, if_neg h, List.pairwise_cons]
      refine ⟨?_, ih hl.2⟩
      intro y hy
      rcases (mem_insertBy le a y xs).mp hy with hy | hy
      · rw [hy]
        rcases htot a x with hax | hxa
        · exact absurd hax h
        · exact hxa
      · exact hl.1 y hy

theorem pairwise_sortBy
    (htot : ∀ a b, le a b = true ∨ le b a = true)
    (htr : ∀ a b c, le a b = true → le b c = true → le a c = true)
    (l : List α) :
    (sortBy le l).Pairwise (fun x y => le x y = true) := by
  induction l with
  | nil => simp [sortBy]
  | cons x xs ih => exact pairwise_insertBy le htot htr x (sortBy le xs) ih

end SortLemmas

theorem find?_append_of_none {α : Type} {pr : α → Bool} {l1 : List α} (l2 : List α)
    (h : l1.find? pr = none) : (l1 ++ l2).find? pr = l2.find? pr := by
  induction l1 with
  | nil => simp
  | cons x xs ih =>
    cases hx : pr x with
    | true => simp [hx] at h
    | false =>
      simp only [List.cons_append]
      rw [List.find?_cons_of_neg _ (by simp [hx])]
      exact ih (by simpa [hx] using h)

theorem priceCartAux_ok (menu : List MenuItemRow) (cart : List (Nat × Nat))
    (h : cart.all (fun pr => (priceOf menu pr.1).isSome) = true) :
    ∀ (total : Nat) (items : List (Nat × Nat × Nat)),
      priceCartAux menu total items cart =
        .ok (cart.foldl (fun a pr => a + (priceOf menu pr.1).getD 0 * pr.2) total,
             items ++ cart.map (fun pr => (pr.1, pr.2, (priceOf menu pr.1).getD 0 * pr.2))) := by
  induction cart with
  | nil => intro total items; simp [priceCartAux]
  | cons pr rest ih =>
    intro total items
    obtain ⟨i, q⟩ := pr
    simp only [List.all_cons, Bool.and_eq_true] at h
    obtain ⟨p, hp⟩ := Option.isSome_iff_exists.mp h.1
    have hp2 : priceOf menu i = some p := hp
    simp only [priceCartAux, hp2, ih h.2, List.foldl_cons, List.map_cons]
    simp [hp2, List.append_assoc]

theorem priceCartAux_err (menu : List MenuItemRow) (cart : List (Nat × Nat)) (i : Nat)
    (h : firstUnpriced menu cart = some i) :
    ∀ (total : Nat) (items : List (Nat × Nat × Nat)),
      priceCartAux menu total items cart =
        .error ("Menu item id " ++ toString i ++ " not found") := by
  induction cart with
  | nil => intro total items; simp [firstUnpriced] at h
  | cons pr rest ih =>
    intro total items
    obtain ⟨j, q⟩ := pr
    cases hj : priceOf menu j with
    | none =>
      have hji : j = i := by simpa [firstUnpriced, hj] using h
      rw [← hji]
      simp [priceCartAux, hj]
    | some p =>
      have hrest : firstUnpriced menu rest = some i := by
        simpa [firstUnpriced, hj] using h
      simp [priceCartAux, hj, ih hrest]

theorem priceOf_setInactive (l : List MenuItemRow) (i : Nat) :
    priceOf (l.map (fun it => { it with is_active := false })) i = priceOf l i := by
  induction l with
  | nil => rfl
  | cons x xs ih =>
    cases hx : x.id == i with
    | true => simp [priceOf, hx]
    | false => simpa [priceOf, hx] using ih

theorem priceCartAux_setInactive (l : List MenuItemRow) (cart : List (Nat × Nat)) :
    ∀ (total : Nat) (items : List (Nat × Nat × Nat)),
      priceCartAux (l.map (fun it => { it with is_active := false })) total items cart =
        priceCartAux l total items cart := by
  induction cart with
  | nil => intro total items; rfl
  | cons pr rest ih =>
    intro total items
    obtain ⟨i, q⟩ := pr
    simp only [priceCartAux, priceOf_setInactive]
    cases priceOf l i with
    | none => rfl
    | some p => exact ih _ _

theorem filter_active_map_inactive (l : List MenuItemRow) :
    (l.map (fun it => { it with is_active := false })).filter (fun it => it.is_active) = [] := by
  induction l with
  | nil => rfl
  | cons x xs ih => simp [ih]

/-! ## Claim theorems -/

/-- C1: if some cart item id has no `menu_items` row, `create_order` fails
with the referenced-item-not-found error naming the first such id, and the
committed store — in particular the `orders` and `order_items` tables — is
exactly as before the call. -/
theorem create_order_unknown_item_no_writes (db : DB) (n p now : String)
    (cart : List (Nat × Nat)) (i : Nat)
    (h : firstUnpriced db.menu_items cart = some i) :
    create_order n p cart now db = (.error ("Menu item id " ++ toString i ++ " not found"), db)
    ∧ (create_order n p cart now db).2.orders = db.orders
    ∧ (create_order n p cart now db).2.order_items = db.order_items := by
  have hmain : create_order n p cart now db =
      (.error ("Menu item id " ++ toString i ++ " not found"), db) := by
    unfold create_order
    rw [priceCartAux_err db.menu_items cart i h]
  exact ⟨hmain, by rw [hmain], by rw [hmain]⟩

/-- Witness for C1: a one-item menu and a cart referencing the unknown id 2. -/
theorem create_order_unknown_item_no_writes_witness :
    create_order "A" "3" [(2, 3)] "t"
        { emptyDB with menu_items := [⟨1, "Pizza", "Main", 500, none, true⟩] } =
      (.error "Menu item id 2 not found",
       { emptyDB with menu_items := [⟨1, "Pizza", "Main", 500, none, true⟩] })
    ∧ (create_order "A" "3" [(2, 3)] "t"
        { emptyDB with menu_items := [⟨1, "Pizza", "Main", 500, none, true⟩] }).2.orders = []
    ∧ (create_order "A" "3" [(2, 3)] "t"
        { emptyDB with menu_items := [⟨1, "Pizza", "Main", 500, none, true⟩] }).2.order_items = [] := by
  have h := create_order_unknown_item_no_writes
    { emptyDB with menu_items := [⟨1, "Pizza", "Main", 500, none, true⟩] }
    "A" "3" "t" [(2, 3)] 2 (by decide)
  exact ⟨h.1, h.2.1, h.2.2⟩

/-- C2: for a cart whose item ids all exist (and a fresh order id), the new
order's total is the cart sum of price × qty, the inserted lines carry
line_total = price × qty entry by entry, and the number of `order_items`
rows for the new order equals the number of cart entries. -/
theorem create_order_total_and_lines (db : DB) (n p now : String)
    (cart : List (Nat × Nat))
    (_h1 : cart ≠ [])
    (h2 : cart.all (fun pr => (priceOf db.menu_items pr.1).isSome) = true)
    (h3 : db.order_items.all (fun r => r.order_id != db.next_order_id) = true) :
    (create_order n p cart now db).1 = .ok db.next_order_id
    ∧ (create_order n p cart now db).2.orders =
        db.orders ++ [⟨db.next_order_id, some n, some p,
          cart.foldl (fun a pr => a + (priceOf db.menu_items pr.1).getD 0 * pr.2) 0, now⟩]
    ∧ (create_order n p cart now db).2.order_items =
        db.order_items ++ cart.map (fun pr =>
          OrderItemRow.mk db.next_order_id pr.1 pr.2 ((priceOf db.menu_items pr.1).getD 0 * pr.2))
    ∧ ((create_order n p cart now db).2.order_items.filter
        (fun r => r.order_id == db.next_order_id)).length = cart.length := by
  have hlines : (create_order n p cart now db).2.order_items =
      db.order_items ++ cart.map (fun pr =>
        OrderItemRow.mk db.next_order_id pr.1 pr.2 ((priceOf db.menu_items pr.1).getD 0 * pr.2)) := by
    unfold create_order
    rw [priceCartAux_ok db.menu_items cart h2]
    simp [List.map_map, Function.comp]
  refine ⟨?_, ?_, hlines, ?_⟩
  · unfold create_order
    rw [priceCartAux_ok db.menu_items cart h2]
  · unfold create_order
    rw [priceCartAux_ok db.menu_items cart h2]
  · rw [hlines, List.filter_append]
    have hold : db.order_items.filter (fun r => r.order_id == db.next_order_id) = [] := by
      rw [List.filter_eq_nil_iff]
      intro r hr
      have := List.all_eq_true.mp h3 r hr
      simpa using this
    have hnew : (cart.map (fun pr =>
        OrderItemRow.mk db.next_order_id pr.1 pr.2
          ((priceOf db.menu_items pr.1).getD 0 * pr.2))).filter
        (fun r => r.order_id == db.next_order_id) =
        cart.map (fun pr =>
          OrderItemRow.mk db.next_order_id pr.1 pr.2
            ((priceOf db.menu_items pr.1).getD 0 * pr.2)) := by
      rw [List.filter_eq_self]
      intro r hr
      obtain ⟨pr, _, hpr⟩ := List.mem_map.mp hr
      rw [← hpr]
      simp
    rw [hold, hnew]
    simp

/-- Witness for C2: a two-entry cart over a two-item menu; total 2·500 + 3·100. -/
theorem create_order_total_and_lines_witness :
    (create_order "A" "3" [(1, 2), (2, 3)] "t"
      { emptyDB with menu_items :=
          [⟨1, "Pizza", "Main", 500, none, true⟩, ⟨2, "Water", "Beverage", 100, none, true⟩] }).1 =
      .ok 1
    ∧ (create_order "A" "3" [(1, 2), (2, 3)] "t"
      { emptyDB with menu_items :=
          [⟨1, "Pizza", "Main", 500, none, true⟩, ⟨2, "Water", "Beverage", 100, none, true⟩] }).2.orders =
      [⟨1, some "A", some "3", 1300, "t"⟩]
    ∧ (create_order "A" "3" [(1, 2), (2, 3)] "t"
      { emptyDB with menu_items :=
          [⟨1, "Pizza", "Main", 500, none, true⟩, ⟨2, "Water", "Beverage", 100, none, true⟩] }).2.order_items =
      [⟨1, 1, 2, 1000⟩, ⟨1, 2, 3, 300⟩]
    ∧ ((create_order "A" "3" [(1, 2), (2, 3)] "t"
      { emptyDB with menu_items :=
          [⟨1, "Pizza", "Main", 500, none, true⟩, ⟨2, "Water", "Beverage", 100, none, true⟩] }).2.order_items.filter
        (fun r => r.order_id == 1)).length = 2 := by
  have h := create_order_total_and_lines
    { emptyDB with menu_items :=
        [⟨1, "Pizza", "Main", 500, none, true⟩, ⟨2, "Water", "Beverage", 100, none, true⟩] }
    "A" "3" "t" [(1, 2), (2, 3)] (by decide) (by decide) (by decide)
  exact ⟨h.1, h.2.1, h.2.2.1, h.2.2.2⟩

/-- C9: `create_order` with an empty cart does not fail: it inserts exactly
one order row with total 0, inserts no `order_items` row, and returns the
fresh order id. -/
theorem create_order_empty_cart (db : DB) (n p now : String) :
    (create_order n p [] now db).1 = .ok db.next_order_id
    ∧ (create_order n p [] now db).2.orders =
        db.orders ++ [⟨db.next_order_id, some n, some p, 0, now⟩]
    ∧ (create_order n p [] now db).2.order_items = db.order_items
    ∧ (create_order n p [] now db).2.next_order_id = db.next_order_id + 1 := by
  refine ⟨rfl, rfl, ?_, rfl⟩
  show db.order_items ++ [] = db.order_items
  simp

/-- C10: `create_order` never consults the `is_active` flag — deactivating
every menu item changes neither its result nor the rows it writes — while
`list_items` (the Menu Catalog listing) shows no inactive item at all. -/
theorem create_order_ignores_active_flag (db : DB) (n p now : String)
    (cart : List (Nat × Nat)) (cat : Option String) (srch : String) :
    ((create_order n p cart now (setInactiveDB db)).1 = (create_order n p cart now db).1
      ∧ (create_order n p cart now (setInactiveDB db)).2.orders =
          (create_order n p cart now db).2.orders
      ∧ (create_order n p cart now (setInactiveDB db)).2.order_items =
          (create_order n p cart now db).2.order_items)
    ∧ list_items cat srch (setInactiveDB db) = [] := by
  constructor
  · have hmenu : (setInactiveDB db).menu_items =
        db.menu_items.map (fun it => { it with is_active := false }) := rfl
    unfold create_order
    rw [hmenu, priceCartAux_setInactive db.menu_items cart 0 []]
    cases hres : priceCartAux db.menu_items 0 [] cart with
    | error e => exact ⟨rfl, rfl, rfl⟩
    | ok pair => exact ⟨rfl, rfl, rfl⟩
  · have h0 : (setInactiveDB db).menu_items.filter (fun it => it.is_active) = [] :=
      filter_active_map_inactive db.menu_items
    unfold list_items
    rw [h0]
    cases cat with
    | none => simp [sortBy]
    | some c =>
      by_cases hc : c = ""
      · simp [hc, sortBy]
      · by_cases hall : c = "All"
        · simp [hc, hall, sortBy]
        · simp [hc, hall, sortBy]

/-- C5: `ensure_customer` is idempotent for a fixed (name, phone) pair: the
second call returns the same id and leaves the store untouched, and when the
pair was absent the first call adds exactly one customer row. -/
theorem ensure_customer_idempotent (db : DB) (n p e : String) :
    (ensure_customer n p e (ensure_customer n p e db).2).1 = (ensure_customer n p e db).1
    ∧ (ensure_customer n p e (ensure_customer n p e db).2).2 = (ensure_customer n p e db).2
    ∧ (db.customers.find? (fun c => c.name == n && c.phone.getD "" == p) = none →
        (ensure_customer n p e db).2.customers.length = db.customers.length + 1) := by
  cases hfind : db.customers.find? (fun c => c.name == n && c.phone.getD "" == p) with
  | some c =>
    exact ⟨by simp [ensure_customer, hfind], by simp [ensure_customer, hfind],
           by intro hc; cases hc⟩
  | none =>
    have hsnd : ensure_customer n p e db =
        (db.next_customer_id,
         { db with
           customers := db.customers ++ [⟨db.next_customer_id, n, some p, e⟩],
           next_customer_id := db.next_customer_id + 1 }) := by
      simp [ensure_customer, hfind]
    have hfind2 : (db.customers ++ [(⟨db.next_customer_id, n, some p, e⟩ : CustomerRow)]).find?
        (fun c => c.name == n && c.phone.getD "" == p) =
        some ⟨db.next_customer_id, n, some p, e⟩ := by
      rw [find?_append_of_none _ hfind]
      exact List.find?_cons_of_pos _ (by simp)
    refine ⟨?_, ?_, ?_⟩
    · rw [hsnd]
      simp [ensure_customer, hfind2]
    · rw [hsnd]
      simp [ensure_customer, hfind2]
    · intro _
      rw [hsnd]
      simp

/-- Witness for C5: a fresh (name, phone) pair against the empty store. -/
theorem ensure_customer_idempotent_witness :
    (ensure_customer "Ali" "0300" "" (ensure_customer "Ali" "0300" "" emptyDB).2).1 =
      (ensure_customer "Ali" "0300" "" emptyDB).1
    ∧ (ensure_customer "Ali" "0300" "" (ensure_customer "Ali" "0300" "" emptyDB).2).2 =
      (ensure_customer "Ali" "0300" "" emptyDB).2
    ∧ (ensure_customer "Ali" "0300" "" emptyDB).2.customers.length =
      emptyDB.customers.length + 1 := by
  have h := ensure_customer_idempotent emptyDB "Ali" "0300" ""
  exact ⟨h.1, h.2.1, h.2.2 (by decide)⟩

/-- C8: the application's create-ticket operation rejects a subject that is
empty after stripping before touching the store: it reports the
subject-required error, inserts no ticket row and resolves no customer. -/
theorem support_create_ticket_empty_subject (db : DB)
    (name phone category subject message now : String)
    (h : pyStrip subject = "") :
    support_create_ticket name phone category subject message now db =
      (.error "Subject is required", db)
    ∧ (support_create_ticket name phone category subject message now db).2.tickets = db.tickets
    ∧ (support_create_ticket name phone category subject message now db).2.customers =
        db.customers := by
  have hmain : support_create_ticket name phone category subject message now db =
      (.error "Subject is required", db) := by
    simp [support_create_ticket, h]
  exact ⟨hmain, by rw [hmain], by rw [hmain]⟩

/-- Witness for C8: a whitespace-only subject. -/
theorem support_create_ticket_empty_subject_witness :
    support_create_ticket "Ali" "0300" "Laundry" "   " "help" "t" emptyDB =
      (.error "Subject is required", emptyDB)
    ∧ (support_create_ticket "Ali" "0300" "Laundry" "   " "help" "t" emptyDB).2.tickets = []
    ∧ (support_create_ticket "Ali" "0300" "Laundry" "   " "help" "t" emptyDB).2.customers = [] := by
  have h := support_create_ticket_empty_subject emptyDB "Ali" "0300" "Laundry" "   " "help" "t"
    (by decide)
  exact ⟨h.1, h.2.1, h.2.2⟩

/-- C4: when both dates parse and the night count (check-out minus check-in
in whole days) is not positive, `create_booking` fails with the
checkout-not-after-checkin error before touching any row: the store comes
back exactly unchanged, whatever the store-failure oracle says. -/
theorem create_booking_nonpositive_nights_rejected (db : DB) (n p : String)
    (rid : Nat) (cin cout now : String) (fl : Bool) (d1 d2 : Date)
    (h1 : date_fromisoformat cin = some d1)
    (h2 : date_fromisoformat cout = some d2)
    (h3 : dateDiff d2 d1 ≤ 0) :
    create_booking n p rid cin cout now fl db =
      (.error "Check-out must be after check-in", db)
    ∧ (create_booking n p rid cin cout now fl db).2.bookings = db.bookings
    ∧ (create_booking n p rid cin cout now fl db).2.customers = db.customers := by
  have hmain : create_booking n p rid cin cout now fl db =
      (.error "Check-out must be after check-in", db) := by
    simp [create_booking, h1, h2, h3]
  exact ⟨hmain, by rw [hmain], by rw [hmain]⟩

/-- Witness for C4: the spec's example of a zero-night booking attempt. -/
theorem create_booking_nonpositive_nights_rejected_witness :
    create_booking "Bob" "0301" 1 "2025-01-10" "2025-01-10" "t" false emptyDB =
      (.error "Check-out must be after check-in", emptyDB)
    ∧ (create_booking "Bob" "0301" 1 "2025-01-10" "2025-01-10" "t" false emptyDB).2.bookings = []
    ∧ (create_booking "Bob" "0301" 1 "2025-01-10" "2025-01-10" "t" false emptyDB).2.customers =
      [] := by
  have h := create_booking_nonpositive_nights_rejected emptyDB "Bob" "0301" 1
    "2025-01-10" "2025-01-10" "t" false ⟨2025, 1, 10⟩ ⟨2025, 1, 10⟩ (by decide) (by decide)
    (by decide)
  exact ⟨h.1, h.2.1, h.2.2⟩

/-- A store holding one room, used to exercise the booking-insert failure. -/
def dbOneRoom : DB := { emptyDB with rooms := [⟨1, "101", "Single", 5000, true⟩] }

/-- Counterexample to C3: with valid dates, an existing room and an injected
store error on the booking INSERT, `create_booking` fails — yet the customer
row resolved just before is already committed, so the store is *not*
unchanged, contradicting the claimed single-transaction behaviour. -/
theorem create_booking_customer_committed_on_failure :
    (create_booking "Alice" "0300" 1 "2025-01-10" "2025-01-13" "t" true dbOneRoom).1 =
      .error "booking insert failed"
    ∧ (create_booking "Alice" "0300" 1 "2025-01-10" "2025-01-13" "t" true dbOneRoom).2.customers =
      [⟨1, "Alice", some "0300", ""⟩]
    ∧ dbOneRoom.customers = [] := by decide

/-- C3 (amended): `ensure_customer` runs and commits on its own connection,
so when the booking INSERT fails after customer resolution the booking row
is absent but the store is left exactly as `ensure_customer` committed it —
the resolved customer row persists; only `bookings` is unchanged. -/
theorem create_booking_failure_keeps_customer (db : DB) (n p : String)
    (rid : Nat) (cin cout now : String) (d1 d2 : Date) (price : Nat)
    (h1 : date_fromisoformat cin = some d1)
    (h2 : date_fromisoformat cout = some d2)
    (h3 : ¬ dateDiff d2 d1 ≤ 0)
    (h4 : roomPrice db rid = some price) :
    create_booking n p rid cin cout now true db =
      (.error "booking insert failed", (ensure_customer n p "" db).2)
    ∧ (ensure_customer n p "" db).2.bookings = db.bookings := by
  constructor
  · simp [create_booking, h1, h2, h3, h4]
  · cases hfind : db.customers.find? (fun c => c.name == n && c.phone.getD "" == p) with
    | some c => simp [ensure_customer, hfind]
    | none => simp [ensure_customer, hfind]

/-- Witness for C3's amended statement: the same one-room store. -/
theorem create_booking_failure_keeps_customer_witness :
    create_booking "Alice" "0300" 1 "2025-01-10" "2025-01-13" "t" true dbOneRoom =
      (.error "booking insert failed", (ensure_customer "Alice" "0300" "" dbOneRoom).2)
    ∧ (ensure_customer "Alice" "0300" "" dbOneRoom).2.bookings = dbOneRoom.bookings := by
  have h := create_booking_failure_keeps_customer dbOneRoom "Alice" "0300" 1
    "2025-01-10" "2025-01-13" "t" ⟨2025, 1, 10⟩ ⟨2025, 1, 13⟩ 5000 (by decide) (by decide)
    (by decide) (by decide)
  exact ⟨h.1, h.2⟩

/-- C6: the source resolver coincides everywhere with the spec's ordered
first-match search (empty hint none; existing absolute path as-is; then the
hint under the assets root, the stem with `.png`/`.jpg`/`.jpeg`, and the
hint with an extra `.png`); in particular hint `pizza.png` resolves to an
assets file literally named `pizza.png.png`. -/
theorem resolve_image_path_first_match :
    (∀ (fs : List String) (assets : String) (path : Option String),
      resolve_image_path fs assets path = resolveSpecModel fs assets path)
    ∧ resolve_image_path ["assets/pizza.png.png"] "assets" (some "pizza.png") =
        some "assets/pizza.png.png" := by
  constructor
  · intro fs assets path
    cases path with
    | none => rfl
    | some p =>
      by_cases hp : p = ""
      · simp [resolve_image_path, resolveSpecModel, hp]
      · by_cases habs : (pisabs p && pexists fs p) = true
        · simp [resolve_image_path, resolveSpecModel, hp, habs]
        · by_cases hc : pexists fs (pjoin assets p) = true
          · simp [resolve_image_path, resolveSpecModel, hp, habs, hc, List.findSome?]
          · simp [resolve_image_path, resolveSpecModel, hp, habs, hc, List.findSome?]
  · decide

theorem ordDescLe_total (a b : OrderRow) : ordDescLe a b = true ∨ ordDescLe b a = true := by
  unfold ordDescLe
  rcases Nat.le_total b.id a.id with h | h
  · exact Or.inl (decide_eq_true h)
  · exact Or.inr (decide_eq_true h)

theorem ordDescLe_trans (a b c : OrderRow)
    (hab : ordDescLe a b = true) (hbc : ordDescLe b c = true) : ordDescLe a c = true := by
  unfold ordDescLe at hab hbc ⊢
  exact decide_eq_true (Nat.le_trans (of_decide_eq_true hbc) (of_decide_eq_true hab))

theorem orderCond_eq_containsCI (nf pf : String) (hnf : nf ≠ "") (hpf : pf ≠ "")
    (hwn : nf.toList.all wcharFree = true) (hwp : pf.toList.all wcharFree = true)
    (r : OrderRow) :
    orderCond (some nf) (some pf) r =
      (containsCI nf.toList (r.customer_name.getD "").toList &&
       containsCI pf.toList (r.phone.getD "").toList) := by
  show ((if nf = "" then true
         else match r.customer_name with
           | none => false
           | some s => likeWrap nf s) &&
        (if pf = "" then true else likeWrap pf (r.phone.getD ""))) =
      (containsCI nf.toList (r.customer_name.getD "").toList &&
       containsCI pf.toList (r.phone.getD "").toList)
  rw [if_neg hnf, if_neg hpf]
  congr 1
  · cases hname : r.customer_name with
    | none =>
      show false = containsCI nf.toList (Option.getD none "").toList
      rw [Option.getD_none]
      exact (containsCI_nil_of_ne nf hnf).symm
    | some s =>
      show likeWrap nf s = containsCI nf.toList (Option.getD (some s) "").toList
      rw [Option.getD_some]
      exact likeWrap_eq_containsCI nf s hwn
  · exact likeWrap_eq_containsCI pf (r.phone.getD "") hwp

/-- A store holding one order with a lower-case customer name. -/
def dbLikeCex : DB := { emptyDB with orders := [⟨1, some "alice", some "0300", 500, "t"⟩] }

/-- Counterexample to C7: with both filters non-empty, the row with
customer_name `alice` is returned for name filter `ALICE`, although `alice`
does not contain `ALICE` as a case-sensitive substring — SQLite's default
`LIKE` is ASCII-case-insensitive, so the claimed case-sensitive semantics
fail. -/
theorem list_orders_like_case_insensitive_cex :
    list_orders (some "ALICE") (some "0") dbLikeCex = [⟨1, "t", "alice", "0300", 500⟩]
    ∧ containsCS "ALICE".toList "alice".toList = false := by decide

/-- C7 (amended): `list_orders` returns exactly the rows matched by both
wrapped `LIKE` filters — for wildcard-free non-empty filters, exactly the
rows whose customer_name (resp. phone, NULL read as empty) contains the
filter as an ASCII-case-insensitive substring, both conditions ANDed —
ordered by id descending. -/
theorem list_orders_desc_filter_semantics (db : DB) (nf pf : String)
    (hnf : nf ≠ "") (hpf : pf ≠ "")
    (hwn : nf.toList.all wcharFree = true) (hwp : pf.toList.all wcharFree = true) :
    list_orders (some nf) (some pf) db =
      (sortBy ordDescLe (db.orders.filter (fun r =>
        containsCI nf.toList (r.customer_name.getD "").toList &&
        containsCI pf.toList (r.phone.getD "").toList))).map toView
    ∧ (list_orders (some nf) (some pf) db).Pairwise (fun a b => b.id ≤ a.id) := by
  constructor
  · unfold list_orders
    rw [List.filter_congr (fun r _ => orderCond_eq_containsCI nf pf hnf hpf hwn hwp r)]
  · unfold list_orders
    rw [List.pairwise_map]
    exact (pairwise_sortBy ordDescLe ordDescLe_total ordDescLe_trans
      (db.orders.filter (orderCond (some nf) (some pf)))).imp
      (fun h => of_decide_eq_true h)

/-- A store with three orders exercising both filters and the ordering. -/
def dbListW : DB :=
  { emptyDB with orders :=
      [⟨1, some "Alan", some "0301", 100, "t1"⟩,
       ⟨2, some "ALICE", some "9999", 200, "t2"⟩,
       ⟨3, some "malig", some "0302", 300, "t3"⟩] }

/-- Witness for C7's amended statement: filters `al` and `03` select orders
1 and 3 (case-insensitively) and the result is id-descending. -/
theorem list_orders_desc_filter_semantics_witness :
    list_orders (some "al") (some "03") dbListW =
      (sortBy ordDescLe (dbListW.orders.filter (fun r =>
        containsCI "al".toList (r.customer_name.getD "").toList &&
        containsCI "03".toList (r.phone.getD "").toList))).map toView
    ∧ (list_orders (some "al") (some "03") dbListW).Pairwise (fun a b => b.id ≤ a.id) := by
  have h := list_orders_desc_filter_semantics dbListW "al" "03"
    (by decide) (by decide) (by decide) (by decide)
  exact ⟨h.1, h.2⟩

end HotelSpec
